import Mathlib

/-!
# HWCalibrate: calibration driver for a Hull-White short-rate model

A shallow embedding of `projects/HWCalibrate/app.cpp`.

* `double` values are embedded as exact numbers (`ℚ` for stored data; `round` is
  stated over any ordered field with a floor function, so it can be read over `ℚ`
  and over `ℝ`).
* `size_t` arithmetic is arithmetic on `Nat` reduced modulo `2 ^ 64`; a `size_t`
  handed to a parameter of the library's type `Integer` (a 32-bit `int`) is
  narrowed by `toInteger`.
* `boost::shared_ptr<T>` is an optional address (`none` is the null pointer); the
  objects live in per-class stores inside `World`.
* The quantitative-finance library is external.  Its value types are records of
  their constructor arguments, and the two facts about it that the driver cannot
  see (the default constructor arguments of `HullWhite`, and what the optimiser
  returns) are the fields of the parameter `Library`.
* A result of `none` means that the call does not return normally (null
  dereference, out-of-range index, a library exception, or a loop that ran out of
  fuel).
-/

namespace HWCalibrate

/-! ## The rounding helper (app.cpp, lines 30-37) -/

/-- The helper `round(val, decimal_places)` over exact arithmetic.
`std::pow(10.0, decimal_places)` is the integer power `10 ^ decimal_places`. -/
def round {K : Type} [LinearOrderedField K] [FloorRing K] (val : K) (decimal_places : Int) : K :=
  let multiplier : K := (10 : K) ^ decimal_places
  let val : K := val * multiplier
  if val < 0 then ((⌈val - 1 / 2⌉ : Int) : K)
  else
    let val : K := ((⌊val + 1 / 2⌋ : Int) : K)
    val / multiplier

/-! ## Machine integers -/

/-- Number of values of `size_t`. -/
def SIZE_MODULUS : Nat := 2 ^ 64

/-- Addition of `size_t` values. -/
def sizeAdd (a b : Nat) : Nat := (a + b) % SIZE_MODULUS

/-- Subtraction of `size_t` values: wraps around below zero. -/
def sizeSub (a b : Nat) : Nat := (a % SIZE_MODULUS + (SIZE_MODULUS - b % SIZE_MODULUS)) % SIZE_MODULUS

/-- Number of values of the library's `Integer` (a 32-bit `int`). -/
def INTEGER_MODULUS : Nat := 2 ^ 32

/-- Largest value of the library's `Integer`. -/
def INTEGER_MAX : Nat := 2 ^ 31 - 1

/-- The implicit conversion of a `size_t` value to the library's `Integer`, done
where a `size_t` is passed to `Period(Integer, TimeUnit)`: the value modulo
`2 ^ 32`, read as two's complement. -/
def toInteger (n : Nat) : Int :=
  if n % INTEGER_MODULUS ≤ INTEGER_MAX then ((n % INTEGER_MODULUS : Nat) : Int)
  else ((n % INTEGER_MODULUS : Nat) : Int) - (INTEGER_MODULUS : Int)

/-! ## Library value types (records of their constructor arguments) -/

inductive TimeUnit where
  | Days | Weeks | Months | Years
  deriving DecidableEq, Repr

/-- The value `Period(n, units)`; `length` is the constructor's `Integer` argument. -/
structure Period where
  length : Int
  units : TimeUnit
  deriving DecidableEq, Repr

inductive Month where
  | January | February | March | April | May | June
  | July | August | September | October | November | December
  deriving DecidableEq, Repr

/-- The value `Date(day, month, year)`. -/
structure Date where
  day : Nat
  month : Month
  year : Nat
  deriving DecidableEq, Repr

inductive Calendar where
  | TARGET
  deriving DecidableEq, Repr

inductive DayCounter where
  | Actual360 | Actual365Fixed
  deriving DecidableEq, Repr

/-- The curve `FlatForward(referenceDate, forward, dayCounter)`. -/
structure FlatForward where
  referenceDate : Date
  forward : ℚ
  dayCounter : DayCounter
  deriving DecidableEq, Repr

/-- A `Handle<T>`: a link to a shared object, possibly empty. -/
abbrev Handle (α : Type) : Type := Option α

/-- The quote `SimpleQuote(value)`. -/
structure SimpleQuote where
  value : ℚ
  deriving DecidableEq, Repr

/-- The index `USDLibor(tenor, forwarding curve)`. -/
structure USDLibor where
  tenor : Period
  termStructure : Handle FlatForward
  deriving DecidableEq, Repr

/-- The value `EndCriteria(maxIterations, maxStationaryStateIterations, rootEpsilon,
functionEpsilon, gradientNormEpsilon)`. -/
structure EndCriteria where
  maxIterations : Nat
  maxStationaryStateIterations : Nat
  rootEpsilon : ℚ
  functionEpsilon : ℚ
  gradientNormEpsilon : ℚ
  deriving DecidableEq, Repr

inductive OptimizationMethod where
  | LevenbergMarquardt
  deriving DecidableEq, Repr

inductive Constraint where
  | NoConstraint
  deriving DecidableEq, Repr

/-! ## Shared objects -/

/-- A `boost::shared_ptr`: `none` is null, `some a` owns the object stored at `a`. -/
abbrev SharedPtr : Type := Option Nat

/-- A calibration helper object: the constructor arguments of `SwaptionHelper` and
the pricing engine attached by `setPricingEngine` (null until then). -/
structure SwaptionHelper where
  maturity : Period
  length : Period
  volatility : Handle SimpleQuote
  index : USDLibor
  fixedLegTenor : Period
  fixedLegDayCounter : DayCounter
  floatingLegDayCounter : DayCounter
  termStructure : Handle FlatForward
  engine : SharedPtr
  deriving DecidableEq, Repr

/-- A `HullWhite` model object: its curve and its parameter array
(`params()[0]` is the reversion, `params()[1]` is sigma). -/
structure HullWhite where
  termStructure : Handle FlatForward
  params : List ℚ
  deriving DecidableEq, Repr

/-- The engine `JamshidianSwaptionEngine(model)`. -/
structure JamshidianSwaptionEngine where
  model : SharedPtr
  deriving DecidableEq, Repr

/-- The arguments of one call of the library's `calibrate` member; an argument
that the caller leaves to its default is `none`. -/
structure CalibrateArgs where
  instruments : List SharedPtr
  method : OptimizationMethod
  endCriteria : EndCriteria
  additionalConstraint : Option Constraint
  weights : Option (List ℚ)
  fixParameters : Option (List Bool)
  deriving DecidableEq, Repr

/-- One entry of the record of optimiser invocations. -/
structure CalibrationCall where
  model : Nat
  modelBefore : HullWhite
  args : CalibrateArgs
  deriving DecidableEq, Repr

/-- One item written to `std::cout`. -/
inductive OutputItem where
  | text (s : String)
  | number (x : ℚ)
  | endl
  deriving DecidableEq, Repr

/-- The mutable state of the process. -/
@[ext]
structure World where
  evaluationDate : Option Date
  helpers : Nat → Option SwaptionHelper
  nextHelper : Nat
  models : Nat → Option HullWhite
  nextModel : Nat
  engines : Nat → Option JamshidianSwaptionEngine
  nextEngine : Nat
  calibrations : List CalibrationCall
  cout : List OutputItem

/-- The state at process start. -/
def World.initial : World :=
  { evaluationDate := none
    helpers := fun _ => none
    nextHelper := 0
    models := fun _ => none
    nextModel := 0
    engines := fun _ => none
    nextEngine := 0
    calibrations := []
    cout := [] }

/-- The external library, as far as the driver depends on it: the default
arguments of the `HullWhite` constructor, and the parameter array the optimiser
leaves in the model (`none`: it raises an exception). -/
structure Library where
  hullWhiteDefaultA : ℚ
  hullWhiteDefaultSigma : ℚ
  optimise : World → HullWhite → CalibrateArgs → Option (List ℚ)

/-- Modelled from the spec: the optimiser behind the library's `calibrate` is not
part of the sources; the spec describes its last argument as "a per-parameter
fixed/free mask".  A library honours the mask when every parameter whose flag is
set keeps the value it had in the model. -/
def Library.HonoursMask (lib : Library) : Prop :=
  ∀ (w : World) (obj : HullWhite) (args : CalibrateArgs) (fix : List Bool) (ps : List ℚ),
    args.fixParameters = some fix → lib.optimise w obj args = some ps →
    ∀ i : Nat, fix[i]? = some true → ps[i]? = obj.params[i]?

/-! ## Library operations used by the driver -/

/-- The call `new T(...)` for a helper: stores the object at a fresh address. -/
def World.newHelper (w : World) (obj : SwaptionHelper) : SharedPtr × World :=
  (some w.nextHelper,
    { w with helpers := Function.update w.helpers w.nextHelper (some obj)
             nextHelper := w.nextHelper + 1 })

/-- The call `new HullWhite(...)`: stores the object at a fresh address. -/
def World.newModel (w : World) (obj : HullWhite) : SharedPtr × World :=
  (some w.nextModel,
    { w with models := Function.update w.models w.nextModel (some obj)
             nextModel := w.nextModel + 1 })

/-- The call `new JamshidianSwaptionEngine(...)`: stores the object at a fresh address. -/
def World.newEngine (w : World) (obj : JamshidianSwaptionEngine) : SharedPtr × World :=
  (some w.nextEngine,
    { w with engines := Function.update w.engines w.nextEngine (some obj)
             nextEngine := w.nextEngine + 1 })

/-- The constructor `HullWhite(termStructure, a, sigma)`; an argument that is not
passed (`none`) takes the library's default. -/
def HullWhite.new (lib : Library) (termStructure : Handle FlatForward)
    (a sigma : Option ℚ) : HullWhite :=
  { termStructure := termStructure
    params := [a.getD lib.hullWhiteDefaultA, sigma.getD lib.hullWhiteDefaultSigma] }

/-- The call `helper->setPricingEngine(engine)`: dereferences `helper` and stores
the engine pointer in the object. -/
def setPricingEngine (helper : SharedPtr) (engine : SharedPtr) (w : World) : Option World :=
  match helper with
  | none => none
  | some a =>
    match w.helpers a with
    | none => none
    | some obj =>
      some { w with helpers := Function.update w.helpers a (some { obj with engine := engine }) }

/-- The call `model->calibrate(args...)`: dereferences `model`, records the
invocation, runs the optimiser and stores the parameters it returns. -/
def HullWhite.calibrate (lib : Library) (model : SharedPtr) (args : CalibrateArgs)
    (w : World) : Option World :=
  match model with
  | none => none
  | some m =>
    match w.models m with
    | none => none
    | some obj =>
      match lib.optimise w obj args with
      | none => none
      | some ps =>
        some { w with models := Function.update w.models m (some { obj with params := ps })
                      calibrations := w.calibrations ++ [⟨m, obj, args⟩] }

/-! ## class ModelCalibrator (app.cpp, lines 50-79) -/

/-- The data members of `ModelCalibrator`: the EndCriteria it was built with and
the ordered vector of helper pointers. -/
structure ModelCalibrator where
  endCriteria : EndCriteria
  helpers : List SharedPtr
  deriving DecidableEq, Repr

/-- The constructor `ModelCalibrator(endCriteria)`. -/
def ModelCalibrator.new (endCriteria : EndCriteria) : ModelCalibrator :=
  { endCriteria := endCriteria, helpers := [] }

/-- The member `AddCalibrationHelper`: `helpers.push_back(helper)`. -/
def ModelCalibrator.AddCalibrationHelper (self : ModelCalibrator) (helper : SharedPtr) :
    ModelCalibrator :=
  { self with helpers := self.helpers ++ [helper] }

/-- First loop of `Calibrate` (lines 62-65): walks the helper vector from `begin()`
to `end()` and attaches the engine to each element. -/
def ModelCalibrator.assignEngines (engine : SharedPtr) : List SharedPtr → World → Option World
  | [], w => some w
  | helper :: rest, w =>
    match setPricingEngine helper engine w with
    | none => none
    | some w1 => ModelCalibrator.assignEngines engine rest w1

/-- Second loop of `Calibrate` (lines 69-70): `for (Size i = 0; i < helpers.size(); ++i)
tmp[i] = static_pointer_cast(helpers[i])`.  The cast keeps the address. -/
def ModelCalibrator.copyLoop (helpers : List SharedPtr) :
    Nat → Nat → List SharedPtr → Option (List SharedPtr)
  | 0, _, _ => none
  | fuel + 1, i, tmp =>
    if i < helpers.length then
      match helpers[i]? with
      | none => none
      | some p =>
        if i < tmp.length then
          ModelCalibrator.copyLoop helpers fuel (sizeAdd i 1) (tmp.set i p)
        else none
    else some tmp

/-- The member `Calibrate(model, engine, curve, fixParameters)`. -/
def ModelCalibrator.Calibrate (lib : Library) (self : ModelCalibrator) (model : SharedPtr)
    (engine : SharedPtr) (curve : Handle FlatForward) (fixParameters : List Bool)
    (w : World) : Option World :=
  match ModelCalibrator.assignEngines engine self.helpers w with
  | none => none
  | some w1 =>
    let method := OptimizationMethod.LevenbergMarquardt
    match ModelCalibrator.copyLoop self.helpers (self.helpers.length + 1) 0
        (List.replicate self.helpers.length none) with
    | none => none
    | some tmp =>
      if fixParameters.isEmpty then
        HullWhite.calibrate lib model
          { instruments := tmp, method := method, endCriteria := self.endCriteria,
            additionalConstraint := none, weights := none, fixParameters := none } w1
      else
        let weights : List ℚ := []
        HullWhite.calibrate lib model
          { instruments := tmp, method := method, endCriteria := self.endCriteria,
            additionalConstraint := some Constraint.NoConstraint, weights := some weights,
            fixParameters := some fixParameters } w1

/-! ## The program (app.cpp, lines 39-48 and 81-149) -/

/-- The function `CreateSwaptionVolatilityList`: five `push_back` calls. -/
def CreateSwaptionVolatilityList : List ℚ :=
  let vol : List ℚ := []
  let vol := vol ++ [0.1148]
  let vol := vol ++ [0.1108]
  let vol := vol ++ [0.1070]
  let vol := vol ++ [0.1021]
  let vol := vol ++ [0.1000]
  vol

/-- Writes items to `std::cout`. -/
def World.print (w : World) (items : List OutputItem) : World :=
  { w with cout := w.cout ++ items }

/-- The loop of `main` that adds the swaption helpers (lines 99-114), started at
index `i`. -/
def addSwaptionHelpers (vol : List ℚ) (curveHandle : Handle FlatForward)
    (dayCounter : DayCounter) :
    Nat → Nat → ModelCalibrator → World → Option (ModelCalibrator × World)
  | 0, _, _, _ => none
  | fuel + 1, i, calibrator, w =>
    if i < vol.length then
      let t := sizeAdd i 1
      let tenor := sizeSub vol.length i
      match vol[i]? with
      | none => none
      | some v =>
        let quoteHandle : Handle SimpleQuote := some ⟨v⟩
        let r := w.newHelper
          { maturity := ⟨toInteger t, TimeUnit.Years⟩
            length := ⟨toInteger tenor, TimeUnit.Years⟩
            volatility := quoteHandle
            index := ⟨⟨3, TimeUnit.Months⟩, curveHandle⟩
            fixedLegTenor := ⟨1, TimeUnit.Years⟩
            fixedLegDayCounter := dayCounter
            floatingLegDayCounter := dayCounter
            termStructure := curveHandle
            engine := none }
        addSwaptionHelpers vol curveHandle dayCounter fuel (sizeAdd i 1)
          (calibrator.AddCalibrationHelper r.1) r.2
    else some (calibrator, w)

/-- One of the three blocks of `main` (lines 117-126, 128-137, 139-148): print the
title, build the model (with the constructor arguments the block passes) and the
engine, calibrate with the block's fix-mask, print the two rounded parameters. -/
def calibrationCase (lib : Library) (calibrator : ModelCalibrator)
    (curveHandle : Handle FlatForward) (title : String) (a sigma : Option ℚ)
    (fixedParameters : List Bool) (label0 label1 : String) (w : World) : Option World :=
  let w := w.print [OutputItem.text title, OutputItem.endl]
  let m := w.newModel (HullWhite.new lib curveHandle a sigma)
  let e := m.2.newEngine ⟨m.1⟩
  match calibrator.Calibrate lib m.1 e.1 curveHandle fixedParameters e.2 with
  | none => none
  | some w =>
    match m.1 with
    | none => none
    | some addr =>
      match w.models addr with
      | none => none
      | some obj =>
        match obj.params[0]?, obj.params[1]? with
        | some p0, some p1 =>
          some (w.print [OutputItem.text label0, OutputItem.number (round p0 5), OutputItem.endl,
            OutputItem.text label1, OutputItem.number (round p1 5), OutputItem.endl,
            OutputItem.endl])
        | _, _ => none

/-- Block "case 1" (lines 117-126): `HullWhite(curveHandle)`, empty mask. -/
def case1 (lib : Library) (calibrator : ModelCalibrator) (curveHandle : Handle FlatForward) :
    World → Option World :=
  calibrationCase lib calibrator curveHandle
    "case 1 : calibrate all involved parameters (HW1F : reversion, sigma)"
    none none [] "calibrated reversion: " "calibrated sigma: "

/-- Block "case 2" (lines 128-137): `HullWhite(curveHandle, 0.05, 0.0001)`, mask
`{ true, false }`. -/
def case2 (lib : Library) (calibrator : ModelCalibrator) (curveHandle : Handle FlatForward) :
    World → Option World :=
  calibrationCase lib calibrator curveHandle
    "case 2 : calibrate sigma and fix reversion to 0.05"
    (some 0.05) (some 0.0001) [true, false] "fixed reversion: " "calibrated sigma: "

/-- Block "case 3" (lines 139-148): `HullWhite(curveHandle, 0.05, 0.01)`, mask
`{ false, true }`. -/
def case3 (lib : Library) (calibrator : ModelCalibrator) (curveHandle : Handle FlatForward) :
    World → Option World :=
  calibrationCase lib calibrator curveHandle
    "case 3 : calibrate reversion and fix sigma to 0.01"
    (some 0.05) (some 0.01) [false, true] "calibrated reversion: " "fixed sigma: "

/-- The curve handle built at line 91. -/
def curveHandle : Handle FlatForward :=
  some ⟨⟨19, Month.February, 2002⟩, 0.04875825, DayCounter.Actual365Fixed⟩

/-- The state of `main` after the helper loop (lines 84-114): the calibrator and
the world. -/
def mainSetup : Option (ModelCalibrator × World) :=
  let tradeDate : Date := ⟨15, Month.February, 2002⟩
  let w : World := { World.initial with evaluationDate := some tradeDate }
  let dayCounter := DayCounter.Actual360
  let vol := CreateSwaptionVolatilityList
  let endCriteria : EndCriteria := ⟨10000, 100, 0.000001, 0.00000001, 0.00000001⟩
  let calibrator := ModelCalibrator.new endCriteria
  addSwaptionHelpers vol curveHandle dayCounter (vol.length + 1) 0 calibrator w

/-- The function `main`. -/
def main (lib : Library) : Option World :=
  match mainSetup with
  | none => none
  | some (calibrator, w) =>
    match case1 lib calibrator curveHandle w with
    | none => none
    | some w =>
      match case2 lib calibrator curveHandle w with
      | none => none
      | some w => case3 lib calibrator curveHandle w

/-! ## A concrete library, for running the program -/

/-- An optimiser result: every free parameter moves to `0.03`, every parameter
whose flag is set stays. -/
def sampleFit : List Bool → List ℚ → List ℚ
  | _, [] => []
  | [], _ :: ps => (3 / 100) :: sampleFit [] ps
  | b :: bs, p :: ps => (if b then p else 3 / 100) :: sampleFit bs ps

/-- A concrete library: the constructor defaults `a = 0.1`, `sigma = 0.01` and the
optimiser `sampleFit`. -/
def sampleLibrary : Library :=
  { hullWhiteDefaultA := 1 / 10
    hullWhiteDefaultSigma := 1 / 100
    optimise := fun _ obj args => some (sampleFit (args.fixParameters.getD []) obj.params) }


/-! ## Closed forms used in the statements -/

/-- The world in which every helper object owned by one of `targets` has its
pricing engine replaced by `engine`, and nothing else differs. -/
def World.withEngine (w : World) (targets : List SharedPtr) (engine : SharedPtr) : World :=
  { w with helpers := fun a =>
      if some a ∈ targets then (w.helpers a).map (fun obj => { obj with engine := engine })
      else w.helpers a }

/-- The (expiry, tenor) pair, in years, of the helper object owned by `p`. -/
def World.basketPair (w : World) (p : SharedPtr) : Option (Int × Int) :=
  match p with
  | none => none
  | some a => (w.helpers a).map (fun obj => (obj.maturity.length, obj.length.length))

/-- The quoted volatility of the helper object owned by `p`. -/
def World.quoteOf (w : World) (p : SharedPtr) : Option ℚ :=
  match p with
  | none => none
  | some a => (w.helpers a).bind (fun obj => obj.volatility.map (fun q => q.value))

/-- The arguments `Calibrate` hands to the model's `calibrate` for a given mask. -/
def ModelCalibrator.calibrateArgs (self : ModelCalibrator) (fixParameters : List Bool) :
    CalibrateArgs :=
  if fixParameters = [] then
    { instruments := self.helpers
      method := OptimizationMethod.LevenbergMarquardt
      endCriteria := self.endCriteria
      additionalConstraint := none
      weights := none
      fixParameters := none }
  else
    { instruments := self.helpers
      method := OptimizationMethod.LevenbergMarquardt
      endCriteria := self.endCriteria
      additionalConstraint := some Constraint.NoConstraint
      weights := some []
      fixParameters := some fixParameters }

/-! ## Concrete data for the instances -/

/-- A helper object with a given engine attached. -/
def demoHelper (engine : SharedPtr) : SwaptionHelper :=
  { maturity := ⟨1, TimeUnit.Years⟩
    length := ⟨2, TimeUnit.Years⟩
    volatility := some ⟨0.11⟩
    index := ⟨⟨3, TimeUnit.Months⟩, curveHandle⟩
    fixedLegTenor := ⟨1, TimeUnit.Years⟩
    fixedLegDayCounter := DayCounter.Actual360
    floatingLegDayCounter := DayCounter.Actual360
    termStructure := curveHandle
    engine := engine }

/-- A model object with reversion `0.05` and sigma `0.0001`. -/
def demoModel : HullWhite :=
  { termStructure := curveHandle, params := [0.05, 0.0001] }

/-- A world with two helper objects (one without engine, one with engine 7) and
one model object. -/
def demoWorld : World :=
  { World.initial with
    helpers := fun a =>
      if a = 0 then some (demoHelper none) else if a = 1 then some (demoHelper (some 7)) else none
    nextHelper := 2
    models := fun a => if a = 0 then some demoModel else none
    nextModel := 1 }

/-- A calibrator whose collection holds helper 0 twice. -/
def demoCalibrator : ModelCalibrator :=
  { endCriteria := ⟨10000, 100, 0.000001, 0.00000001, 0.00000001⟩
    helpers := [some 0, some 1, some 0] }

/-! ## Theorems: `round` -/

theorem round_of_nonneg {K : Type} [LinearOrderedField K] [FloorRing K] (val : K) (d : Int)
    (h : 0 ≤ val) : round val d = ((⌊val * (10 : K) ^ d + 1 / 2⌋ : Int) : K) / (10 : K) ^ d := by
  have hm : (0 : K) < (10 : K) ^ d := zpow_pos (by norm_num) d
  have hv : ¬ val * (10 : K) ^ d < 0 := not_lt.mpr (mul_nonneg h hm.le)
  simp only [round, if_neg hv]

theorem floor_add_half {K : Type} [LinearOrderedField K] [FloorRing K] (n : Int) :
    ⌊(n : K) + 1 / 2⌋ = n := by
  rw [Int.floor_eq_iff]
  constructor
  · linarith [show (0 : K) < 1 / 2 by norm_num]
  · linarith [show (1 / 2 : K) < 1 by norm_num]

/-- C10: for every `val >= 0` and every integer `decimal_places`, over exact
arithmetic, `round` is round-half-up on the scaled value, rescaled, and rounding a
rounded value again changes nothing. -/
theorem round_nonneg_half_up_idempotent {K : Type} [LinearOrderedField K] [FloorRing K]
    (val : K) (d : Int) (h : 0 ≤ val) :
    round val d = ((⌊val * (10 : K) ^ d + 1 / 2⌋ : Int) : K) / (10 : K) ^ d ∧
      round (round val d) d = round val d := by
  have hm : (0 : K) < (10 : K) ^ d := zpow_pos (by norm_num) d
  have hf := round_of_nonneg val d h
  refine ⟨hf, ?_⟩
  have hn : (0 : Int) ≤ ⌊val * (10 : K) ^ d + 1 / 2⌋ := by
    apply Int.floor_nonneg.mpr
    have := mul_nonneg h hm.le
    linarith [show (0 : K) < 1 / 2 by norm_num]
  have hr : 0 ≤ round val d := by
    rw [hf]
    exact div_nonneg (by exact_mod_cast hn) hm.le
  rw [round_of_nonneg (round val d) d hr, hf, div_mul_cancel₀ _ hm.ne', floor_add_half]

theorem round_nonneg_half_up_idempotent_witness :
    (0 : ℚ) ≤ 12346 / 1000000 ∧
      (round (12346 / 1000000 : ℚ) 5 =
          ((⌊(12346 / 1000000 : ℚ) * (10 : ℚ) ^ (5 : Int) + 1 / 2⌋ : Int) : ℚ) / (10 : ℚ) ^ (5 : Int) ∧
        round (round (12346 / 1000000 : ℚ) 5) 5 = round (12346 / 1000000 : ℚ) 5) :=
  ⟨by norm_num, round_nonneg_half_up_idempotent (12346 / 1000000 : ℚ) 5 (by norm_num)⟩

/-- C7: at `val = -1.5`, `decimal_places = 1` the code returns `-15` (the scaled
value, rounded, never divided by the multiplier), which is `13.5` away from `val`,
although `-1.5` already has one decimal place. -/
theorem round_negative_not_rescaled :
    round (-3 / 2 : ℚ) 1 = -15 ∧
      ¬ |round (-3 / 2 : ℚ) 1 - (-3 / 2)| ≤ 1 / 2 * (10 : ℚ) ^ (-1 : Int) := by
  have hc : ⌈(-3 / 2 : ℚ) * 10 - 1 / 2⌉ = -15 := by
    rw [Int.ceil_eq_iff]
    constructor <;> norm_num
  have h : round (-3 / 2 : ℚ) 1 = -15 := by
    have hneg : (-3 / 2 : ℚ) * (10 : ℚ) ^ (1 : Int) < 0 := by norm_num
    simp only [round, if_pos hneg, zpow_one, hc]
    norm_num
  refine ⟨h, ?_⟩
  rw [h]
  norm_num [abs_of_neg]

/-! ## Theorems: ModelCalibrator -/

theorem sizeAdd_one_of_lt {i n : Nat} (hi : i < n) (hn : n < SIZE_MODULUS) :
    sizeAdd i 1 = i + 1 := by
  unfold sizeAdd
  exact Nat.mod_eq_of_lt (by omega)

theorem copyLoop_inv (helpers : List SharedPtr) (hn : helpers.length < SIZE_MODULUS) :
    ∀ (fuel i : Nat) (tmp : List SharedPtr), i ≤ helpers.length →
      tmp.length = helpers.length → helpers.length - i < fuel →
      (∀ j, j < i → tmp[j]? = helpers[j]?) →
      ModelCalibrator.copyLoop helpers fuel i tmp = some helpers := by
  intro fuel
  induction fuel with
  | zero => intro i tmp _ _ hf; omega
  | succ fuel ih =>
    intro i tmp hi hlen hf hpre
    unfold ModelCalibrator.copyLoop
    by_cases hlt : i < helpers.length
    · have hget : helpers[i]? = some helpers[i] := List.getElem?_eq_getElem hlt
      have hlt2 : i < tmp.length := by omega
      simp only [if_pos hlt, hget, if_pos hlt2]
      rw [sizeAdd_one_of_lt hlt hn]
      apply ih
      · omega
      · simpa using hlen
      · omega
      · intro j hj
        by_cases hji : j = i
        · subst hji
          simp [List.getElem?_set, hlt2]
        · have : j < i := by omega
          rw [List.getElem?_set_ne (Ne.symm hji)]
          exact hpre j this
    · have hie : i = helpers.length := by omega
      simp only [if_neg hlt]
      congr 1
      apply List.ext_getElem?
      intro j
      by_cases hj : j < i
      · exact hpre j hj
      · have h1 : tmp.length ≤ j := by omega
        have h2 : helpers.length ≤ j := by omega
        rw [List.getElem?_eq_none h1, List.getElem?_eq_none h2]

theorem copyLoop_eq (helpers : List SharedPtr) (hn : helpers.length < SIZE_MODULUS) :
    ModelCalibrator.copyLoop helpers (helpers.length + 1) 0
      (List.replicate helpers.length none) = some helpers := by
  apply copyLoop_inv helpers hn
  · omega
  · simp
  · omega
  · intro j hj; omega

/-- C5: `AddCalibrationHelper` appends without validation: for every calibrator
and every pointer (null or already present included) the new helper sequence is the
old one followed by the pointer, the length grows by one, the earlier positions
are unchanged, and the EndCriteria is unchanged.  The operation is total. -/
theorem AddCalibrationHelper_appends (self : ModelCalibrator) (helper : SharedPtr) :
    (self.AddCalibrationHelper helper).helpers = self.helpers ++ [helper] ∧
      (self.AddCalibrationHelper helper).helpers.length = self.helpers.length + 1 ∧
      (∀ i, i < self.helpers.length →
        (self.AddCalibrationHelper helper).helpers[i]? = self.helpers[i]?) ∧
      (self.AddCalibrationHelper helper).helpers[self.helpers.length]? = some helper ∧
      (self.AddCalibrationHelper helper).endCriteria = self.endCriteria := by
  refine ⟨rfl, by simp [ModelCalibrator.AddCalibrationHelper], ?_, ?_, rfl⟩
  · intro i hi
    simp [ModelCalibrator.AddCalibrationHelper, List.getElem?_append_left hi]
  · simp [ModelCalibrator.AddCalibrationHelper]

/-- C9: `Calibrate` does not depend on its curve argument: with any two curves it
yields the same outcome (same engine assignments, same optimiser invocation, same
resulting state). -/
theorem Calibrate_curve_irrelevant (lib : Library) (self : ModelCalibrator)
    (model engine : SharedPtr) (c1 c2 : Handle FlatForward) (fixParameters : List Bool)
    (w : World) :
    self.Calibrate lib model engine c1 fixParameters w =
      self.Calibrate lib model engine c2 fixParameters w := rfl

/-- C2: `Calibrate` dispatches on the fix-mask.  After the engine assignment it
makes one call of the model's `calibrate`: with an empty mask the arguments are the
helpers in insertion order, the Levenberg-Marquardt method and the calibrator's
EndCriteria, and nothing else; otherwise the same three, no additional constraint,
an empty weight vector and the given mask unchanged. -/
theorem Calibrate_dispatch (lib : Library) (self : ModelCalibrator)
    (model engine : SharedPtr) (curve : Handle FlatForward) (fixParameters : List Bool)
    (w : World) (hsize : self.helpers.length < SIZE_MODULUS) :
    self.Calibrate lib model engine curve fixParameters w =
      (ModelCalibrator.assignEngines engine self.helpers w).bind
        (HullWhite.calibrate lib model
          (if fixParameters = [] then
            { instruments := self.helpers
              method := OptimizationMethod.LevenbergMarquardt
              endCriteria := self.endCriteria
              additionalConstraint := none
              weights := none
              fixParameters := none }
          else
            { instruments := self.helpers
              method := OptimizationMethod.LevenbergMarquardt
              endCriteria := self.endCriteria
              additionalConstraint := some Constraint.NoConstraint
              weights := some []
              fixParameters := some fixParameters })) := by
  unfold ModelCalibrator.Calibrate
  rw [copyLoop_eq self.helpers hsize]
  cases hA : ModelCalibrator.assignEngines engine self.helpers w with
  | none => rfl
  | some w1 =>
    cases fixParameters with
    | nil => rfl
    | cons b bs => rfl

theorem assignEngines_some (engine : SharedPtr) :
    ∀ (l : List SharedPtr) (w w1 : World),
      ModelCalibrator.assignEngines engine l w = some w1 → w1 = w.withEngine l engine := by
  intro l
  induction l with
  | nil =>
    intro w w1 h
    simp only [ModelCalibrator.assignEngines, Option.some.injEq] at h
    subst h
    apply World.ext <;> simp [World.withEngine]
  | cons p rest ih =>
    intro w w1 h
    cases p with
    | none => simp [ModelCalibrator.assignEngines, setPricingEngine] at h
    | some a0 =>
      cases hobj : w.helpers a0 with
      | none => simp [ModelCalibrator.assignEngines, setPricingEngine, hobj] at h
      | some obj0 =>
        simp only [ModelCalibrator.assignEngines, setPricingEngine, hobj] at h
        have h1 := ih _ _ h
        rw [h1]
        apply World.ext <;> try rfl
        funext a
        by_cases ha : a = a0
        · subst ha
          by_cases hm : some a ∈ rest <;> simp [World.withEngine, hm, hobj]
        · have hne : ¬ (some a = some a0) := fun hh => ha (Option.some.inj hh)
          simp [World.withEngine, Function.update_noteq ha, hne, ha]

theorem assignEngines_valid (engine : SharedPtr) :
    ∀ (l : List SharedPtr) (w : World),
      (∀ p ∈ l, ∃ a obj, p = some a ∧ w.helpers a = some obj) →
      ∃ w1, ModelCalibrator.assignEngines engine l w = some w1 := by
  intro l
  induction l with
  | nil => intro w _; exact ⟨w, rfl⟩
  | cons p rest ih =>
    intro w hv
    obtain ⟨a0, obj0, hp, hobj⟩ := hv p (List.mem_cons_self _ _)
    subst hp
    simp only [ModelCalibrator.assignEngines, setPricingEngine, hobj]
    apply ih
    intro q hq
    obtain ⟨a, obj, hq2, hobj2⟩ := hv q (List.mem_cons_of_mem _ hq)
    by_cases ha : a = a0
    · subst ha
      exact ⟨a, { obj0 with engine := engine }, hq2, by simp⟩
    · exact ⟨a, obj, hq2, by simp [Function.update_noteq ha, hobj2]⟩

theorem calibrate_helpers (lib : Library) (model : SharedPtr) (args : CalibrateArgs)
    (w w' : World) (h : HullWhite.calibrate lib model args w = some w') :
    w'.helpers = w.helpers := by
  unfold HullWhite.calibrate at h
  cases model with
  | none => simp at h
  | some m =>
    cases hm : w.models m with
    | none => simp [hm] at h
    | some obj =>
      cases ho : lib.optimise w obj args with
      | none => simp [hm, ho] at h
      | some ps =>
        simp only [hm, ho, Option.some.injEq] at h
        subst h
        rfl

/-- C4: `Calibrate` assigns the given engine to every helper of the collection,
overwriting any previous engine.  For every collection whose pointers own helper
objects (with arbitrary engines attached) the first loop completes; in the world it
leaves, every helper of the collection is its old object with the engine replaced
by `engine` and every other helper object is untouched; `Calibrate` then returns
exactly when the model's `calibrate` returns from that world, and whenever it
returns, the helper objects are exactly those.  (`Calibrate` is a `const` member:
the collection itself, its length and its order, are not written.) -/
theorem Calibrate_assigns_engine (lib : Library) (self : ModelCalibrator)
    (model engine : SharedPtr) (curve : Handle FlatForward) (fixParameters : List Bool)
    (w : World)
    (hvalid : ∀ p ∈ self.helpers, ∃ a obj, p = some a ∧ w.helpers a = some obj)
    (hsize : self.helpers.length < SIZE_MODULUS) :
    ∃ w1, ModelCalibrator.assignEngines engine self.helpers w = some w1 ∧
      (∀ a, some a ∈ self.helpers →
        ∃ obj, w.helpers a = some obj ∧ w1.helpers a = some { obj with engine := engine }) ∧
      (∀ a, some a ∉ self.helpers → w1.helpers a = w.helpers a) ∧
      self.Calibrate lib model engine curve fixParameters w =
        HullWhite.calibrate lib model (self.calibrateArgs fixParameters) w1 ∧
      (∀ w', self.Calibrate lib model engine curve fixParameters w = some w' →
        w'.helpers = w1.helpers) := by
  obtain ⟨w1, h1⟩ := assignEngines_valid engine self.helpers w hvalid
  have hw1 := assignEngines_some engine _ _ _ h1
  refine ⟨w1, h1, ?_, ?_, ?_, ?_⟩
  · intro a ha
    obtain ⟨a', obj, hp, hobj⟩ := hvalid _ ha
    have : a' = a := (Option.some.inj hp).symm
    subst this
    exact ⟨obj, hobj, by simp [hw1, World.withEngine, ha, hobj]⟩
  · intro a ha
    simp [hw1, World.withEngine, ha]
  · unfold ModelCalibrator.Calibrate
    rw [copyLoop_eq self.helpers hsize]
    simp only [h1]
    cases fixParameters with
    | nil => rfl
    | cons b bs => rfl
  · intro w' h
    unfold ModelCalibrator.Calibrate at h
    simp only [h1] at h
    cases hc : ModelCalibrator.copyLoop self.helpers (self.helpers.length + 1) 0
        (List.replicate self.helpers.length none) with
    | none => simp [hc] at h
    | some tmp =>
      simp only [hc] at h
      split at h <;> exact calibrate_helpers lib model _ _ _ h

/-! ## Theorems: the helper loop of `main` -/

theorem sizeSub_of_le {i n : Nat} (hi : i ≤ n) (hn : n < SIZE_MODULUS) :
    sizeSub n i = n - i := by
  unfold sizeSub
  have h1 : n % SIZE_MODULUS = n := Nat.mod_eq_of_lt hn
  have h2 : i % SIZE_MODULUS = i := Nat.mod_eq_of_lt (by omega)
  rw [h1, h2]
  have h3 : n + (SIZE_MODULUS - i) = (n - i) + SIZE_MODULUS := by omega
  rw [h3, Nat.add_mod_right]
  exact Nat.mod_eq_of_lt (by omega)

theorem toInteger_of_le {n : Nat} (h : n ≤ INTEGER_MAX) : toInteger n = (n : Int) := by
  have hlt : n < INTEGER_MODULUS := by
    have : INTEGER_MAX < INTEGER_MODULUS := by decide
    omega
  have hmod : n % INTEGER_MODULUS = n := Nat.mod_eq_of_lt hlt
  unfold toInteger
  rw [hmod, if_pos h]

theorem addSwaptionHelpers_inv (vol : List ℚ) (curve : Handle FlatForward) (dc : DayCounter)
    (hN : vol.length < SIZE_MODULUS) :
    ∀ (fuel i : Nat) (cal : ModelCalibrator) (w : World), i ≤ vol.length →
      vol.length - i < fuel →
      ∃ cal' w', addSwaptionHelpers vol curve dc fuel i cal w = some (cal', w') ∧
        cal'.helpers = cal.helpers ++
          (List.range (vol.length - i)).map (fun k => some (w.nextHelper + k)) ∧
        (∀ k, k < vol.length - i → ∃ v, vol[i + k]? = some v ∧
          w'.helpers (w.nextHelper + k) = some
            { maturity := ⟨toInteger (i + k + 1), TimeUnit.Years⟩
              length := ⟨toInteger (vol.length - (i + k)), TimeUnit.Years⟩
              volatility := some ⟨v⟩
              index := ⟨⟨3, TimeUnit.Months⟩, curve⟩
              fixedLegTenor := ⟨1, TimeUnit.Years⟩
              fixedLegDayCounter := dc
              floatingLegDayCounter := dc
              termStructure := curve
              engine := none }) ∧
        (∀ a, a < w.nextHelper → w'.helpers a = w.helpers a) := by
  intro fuel
  induction fuel with
  | zero => intro i cal w _ hf; omega
  | succ fuel ih =>
    intro i cal w hi hf
    unfold addSwaptionHelpers
    by_cases hlt : i < vol.length
    · have hget : vol[i]? = some vol[i] := List.getElem?_eq_getElem hlt
      simp only [if_pos hlt, hget]
      rw [sizeAdd_one_of_lt hlt hN, sizeSub_of_le hi hN]
      obtain ⟨cal', w', hrun, hh, hobj, hframe⟩ := ih (i + 1) _ _ (by omega : i + 1 ≤ vol.length)
        (by omega : vol.length - (i + 1) < fuel)
      refine ⟨cal', w', hrun, ?_, ?_, ?_⟩
      · rw [hh]
        have hsplit : vol.length - i = (vol.length - (i + 1)) + 1 := by omega
        rw [hsplit, List.range_succ_eq_map]
        simp [ModelCalibrator.AddCalibrationHelper, World.newHelper, List.map_map,
          Function.comp_def, Nat.add_assoc, Nat.add_comm 1]
      · intro k hk
        cases k with
        | zero =>
          refine ⟨vol[i], by simp, ?_⟩
          rw [hframe _ (by simp [World.newHelper])]
          simp [World.newHelper]
        | succ k =>
          obtain ⟨v, hv, hw⟩ := hobj k (by omega)
          simp only [World.newHelper] at hw
          have e1 : i + (k + 1) = i + 1 + k := by omega
          have e2 : w.nextHelper + (k + 1) = w.nextHelper + 1 + k := by omega
          refine ⟨v, by rw [e1]; exact hv, ?_⟩
          rw [e2, e1]
          exact hw
      · intro a ha
        rw [hframe a (by simp [World.newHelper]; omega)]
        simp [World.newHelper, Function.update_noteq (Nat.ne_of_lt ha)]
    · have hie : vol.length - i = 0 := by omega
      simp only [if_neg hlt]
      refine ⟨cal, w, rfl, by simp [hie], ?_, fun _ _ => rfl⟩
      intro k hk
      omega

theorem addSwaptionHelpers_first_tenor (vol : List ℚ) (curve : Handle FlatForward)
    (dc : DayCounter) (cal : ModelCalibrator) (w : World) (n : Nat) (hlen : vol.length = n)
    (hn : n < SIZE_MODULUS) (hpos : 0 < n) :
    ∃ cal' w' a obj, addSwaptionHelpers vol curve dc (vol.length + 1) 0 cal w = some (cal', w') ∧
      cal'.helpers[cal.helpers.length + 0]? = some (some a) ∧
      w'.helpers a = some obj ∧ obj.length = ⟨toInteger n, TimeUnit.Years⟩ := by
  have hN : vol.length < SIZE_MODULUS := by rw [hlen]; exact hn
  have hi : 0 < vol.length := by rw [hlen]; exact hpos
  obtain ⟨cal', w', hrun, hh, hobj, _⟩ :=
    addSwaptionHelpers_inv vol curve dc hN (vol.length + 1) 0 cal w (Nat.zero_le _) (by omega)
  obtain ⟨v, _, hw⟩ := hobj 0 (by omega)
  refine ⟨cal', w', w.nextHelper + 0, _, hrun, ?_, hw, ?_⟩
  · rw [hh, List.getElem?_append_right (Nat.le_add_right _ _)]
    simp [hi]
  · show (⟨toInteger (vol.length - (0 + 0)), TimeUnit.Years⟩ : Period) = _
    rw [Nat.add_zero, Nat.sub_zero, hlen]

/-- C1, as amended: the diagonal basket built by the helper loop of `main`.  For
every volatility list of length `N` at most `2 ^ 31 - 1` (the largest count the
library's `Integer` holds) the loop terminates, adds `N` helpers to the calibrator,
and for every `i < N` the `i`-th helper added owns an object with expiry `i + 1`
years, swap tenor `N - i` years and quote `vol[i]`; the `size_t` values `i + 1` and
`N - i` are computed without wrap-around, are not changed by the conversion to
`Integer`, sum to `N + 1` and lie in `[1, N]`.  For the five volatilities of the
program the pairs are (1,5), (2,4), (3,3), (4,2), (5,1). -/
theorem diagonal_basket (vol : List ℚ) (curve : Handle FlatForward) (dc : DayCounter)
    (cal : ModelCalibrator) (w : World) (hN : vol.length ≤ INTEGER_MAX) :
    (∃ cal' w', addSwaptionHelpers vol curve dc (vol.length + 1) 0 cal w = some (cal', w') ∧
      cal'.helpers.length = cal.helpers.length + vol.length ∧
      ∀ i, i < vol.length → ∃ a obj v,
        cal'.helpers[cal.helpers.length + i]? = some (some a) ∧
        w'.helpers a = some obj ∧ vol[i]? = some v ∧
        obj.maturity = ⟨((i + 1 : Nat) : Int), TimeUnit.Years⟩ ∧
        obj.length = ⟨((vol.length - i : Nat) : Int), TimeUnit.Years⟩ ∧
        obj.volatility = some ⟨v⟩ ∧
        sizeAdd i 1 = i + 1 ∧ sizeSub vol.length i = vol.length - i ∧
        (vol.length - i) + i = vol.length ∧
        toInteger (sizeAdd i 1) = ((i + 1 : Nat) : Int) ∧
        toInteger (sizeSub vol.length i) = ((vol.length - i : Nat) : Int) ∧
        obj.maturity.length + obj.length.length = ((vol.length + 1 : Nat) : Int) ∧
        1 ≤ obj.maturity.length ∧ obj.maturity.length ≤ (vol.length : Int) ∧
        1 ≤ obj.length.length ∧ obj.length.length ≤ (vol.length : Int)) ∧
    (∃ cal0 w0, mainSetup = some (cal0, w0) ∧
      cal0.helpers.map w0.basketPair =
        [some (1, 5), some (2, 4), some (3, 3), some (4, 2), some (5, 1)]) := by
  have hS : vol.length < SIZE_MODULUS := by
    have : INTEGER_MAX < SIZE_MODULUS := by decide
    omega
  constructor
  · obtain ⟨cal', w', hrun, hh, hobj, _⟩ :=
      addSwaptionHelpers_inv vol curve dc hS (vol.length + 1) 0 cal w (Nat.zero_le _) (by omega)
    refine ⟨cal', w', hrun, by simp [hh], ?_⟩
    intro i hi
    obtain ⟨v, hv, hw⟩ := hobj i (by omega)
    rw [Nat.zero_add] at hv hw
    have ha := sizeAdd_one_of_lt hi hS
    have hs := sizeSub_of_le (Nat.le_of_lt hi) hS
    have t1 : toInteger (i + 1) = ((i + 1 : Nat) : Int) := toInteger_of_le (by omega)
    have t2 : toInteger (vol.length - i) = ((vol.length - i : Nat) : Int) :=
      toInteger_of_le (by omega)
    rw [t1, t2] at hw
    refine ⟨w.nextHelper + i, _, v, ?_, hw, hv, rfl, rfl, rfl, ha, hs, by omega,
      by rw [ha, t1], by rw [hs, t2], ?_, ?_, ?_, ?_, ?_⟩
    · rw [hh, List.getElem?_append_right (Nat.le_add_right _ _)]
      simp [hi]
    · show ((i + 1 : Nat) : Int) + ((vol.length - i : Nat) : Int) = ((vol.length + 1 : Nat) : Int)
      omega
    · show (1 : Int) ≤ ((i + 1 : Nat) : Int)
      omega
    · show ((i + 1 : Nat) : Int) ≤ (vol.length : Int)
      omega
    · show (1 : Int) ≤ ((vol.length - i : Nat) : Int)
      omega
    · show ((vol.length - i : Nat) : Int) ≤ (vol.length : Int)
      omega
  · exact ⟨_, _, rfl, rfl⟩

theorem diagonal_basket_witness :
    CreateSwaptionVolatilityList.length ≤ INTEGER_MAX ∧
    ((∃ cal' w', addSwaptionHelpers CreateSwaptionVolatilityList curveHandle DayCounter.Actual360
        (CreateSwaptionVolatilityList.length + 1) 0 (ModelCalibrator.new ⟨10000, 100, 0, 0, 0⟩)
        World.initial = some (cal', w') ∧
      cal'.helpers.length = (ModelCalibrator.new ⟨10000, 100, 0, 0, 0⟩).helpers.length +
        CreateSwaptionVolatilityList.length ∧
      ∀ i, i < CreateSwaptionVolatilityList.length → ∃ a obj v,
        cal'.helpers[(ModelCalibrator.new ⟨10000, 100, 0, 0, 0⟩).helpers.length + i]? =
          some (some a) ∧
        w'.helpers a = some obj ∧ CreateSwaptionVolatilityList[i]? = some v ∧
        obj.maturity = ⟨((i + 1 : Nat) : Int), TimeUnit.Years⟩ ∧
        obj.length = ⟨((CreateSwaptionVolatilityList.length - i : Nat) : Int), TimeUnit.Years⟩ ∧
        obj.volatility = some ⟨v⟩ ∧
        sizeAdd i 1 = i + 1 ∧
        sizeSub CreateSwaptionVolatilityList.length i = CreateSwaptionVolatilityList.length - i ∧
        (CreateSwaptionVolatilityList.length - i) + i = CreateSwaptionVolatilityList.length ∧
        toInteger (sizeAdd i 1) = ((i + 1 : Nat) : Int) ∧
        toInteger (sizeSub CreateSwaptionVolatilityList.length i) =
          ((CreateSwaptionVolatilityList.length - i : Nat) : Int) ∧
        obj.maturity.length + obj.length.length =
          ((CreateSwaptionVolatilityList.length + 1 : Nat) : Int) ∧
        1 ≤ obj.maturity.length ∧
        obj.maturity.length ≤ (CreateSwaptionVolatilityList.length : Int) ∧
        1 ≤ obj.length.length ∧
        obj.length.length ≤ (CreateSwaptionVolatilityList.length : Int)) ∧
    (∃ cal0 w0, mainSetup = some (cal0, w0) ∧
      cal0.helpers.map w0.basketPair =
        [some (1, 5), some (2, 4), some (3, 3), some (4, 2), some (5, 1)])) :=
  ⟨by decide, diagonal_basket CreateSwaptionVolatilityList curveHandle DayCounter.Actual360
    (ModelCalibrator.new ⟨10000, 100, 0, 0, 0⟩) World.initial (by decide)⟩

/-- C1, as stated, fails: for a volatility list of length `N = 2 ^ 31` the loop
terminates and the first helper added (`i = 0`) is built with the tenor count
`N - 0 = 2147483648` narrowed to the library's `Integer`, that is with a tenor of
`-2147483648` years, not `N - i` years and not in `[1, N]`. -/
theorem diagonal_basket_narrows_at_two_pow_31 :
    ∃ cal' w' a obj,
      addSwaptionHelpers (List.replicate (2 ^ 31) (1 / 10 : ℚ)) curveHandle DayCounter.Actual360
        ((List.replicate (2 ^ 31) (1 / 10 : ℚ)).length + 1) 0
        (ModelCalibrator.new ⟨10000, 100, 0, 0, 0⟩) World.initial = some (cal', w') ∧
      cal'.helpers[(ModelCalibrator.new ⟨10000, 100, 0, 0, 0⟩).helpers.length + 0]? =
        some (some a) ∧
      w'.helpers a = some obj ∧
      obj.length = ⟨-2147483648, TimeUnit.Years⟩ ∧
      obj.length ≠ ⟨((2 ^ 31 - 0 : Nat) : Int), TimeUnit.Years⟩ ∧
      ¬ (1 ≤ obj.length.length) := by
  obtain ⟨cal', w', a, obj, hrun, hget, hw, hlen⟩ :=
    addSwaptionHelpers_first_tenor (List.replicate (2 ^ 31) (1 / 10 : ℚ)) curveHandle
      DayCounter.Actual360 (ModelCalibrator.new ⟨10000, 100, 0, 0, 0⟩) World.initial (2 ^ 31)
      (List.length_replicate _ _) (by decide) (by decide)
  have hval : toInteger (2 ^ 31) = -2147483648 := by decide
  rw [hval] at hlen
  refine ⟨cal', w', a, obj, hrun, hget, hw, hlen, ?_, ?_⟩
  · rw [hlen]
    intro h
    have h2 := congrArg Period.length h
    simp at h2
  · rw [hlen]
    decide

/-! ## Theorems: what `Calibrate` does to the model -/

theorem calibrate_some (lib : Library) (model : SharedPtr) (args : CalibrateArgs)
    (w w' : World) (h : HullWhite.calibrate lib model args w = some w') :
    ∃ m obj ps, model = some m ∧ w.models m = some obj ∧ lib.optimise w obj args = some ps ∧
      w' = { w with models := Function.update w.models m (some { obj with params := ps })
                    calibrations := w.calibrations ++ [⟨m, obj, args⟩] } := by
  unfold HullWhite.calibrate at h
  cases model with
  | none => simp at h
  | some m =>
    cases hm : w.models m with
    | none => simp [hm] at h
    | some obj =>
      cases ho : lib.optimise w obj args with
      | none => simp [hm, ho] at h
      | some ps =>
        simp only [hm, ho, Option.some.injEq] at h
        exact ⟨m, obj, ps, rfl, hm, ho, h.symm⟩

theorem Calibrate_some (lib : Library) (self : ModelCalibrator) (model engine : SharedPtr)
    (curve : Handle FlatForward) (fixParameters : List Bool) (w w' : World)
    (h : self.Calibrate lib model engine curve fixParameters w = some w') :
    ∃ m obj ps args, model = some m ∧ w.models m = some obj ∧
      lib.optimise (w.withEngine self.helpers engine) obj args = some ps ∧
      (fixParameters ≠ [] → args.fixParameters = some fixParameters) ∧
      (self.helpers.length < SIZE_MODULUS → args = self.calibrateArgs fixParameters) ∧
      w' = { w.withEngine self.helpers engine with
        models := Function.update w.models m (some { obj with params := ps })
        calibrations := w.calibrations ++ [⟨m, obj, args⟩] } := by
  unfold ModelCalibrator.Calibrate at h
  cases hA : ModelCalibrator.assignEngines engine self.helpers w with
  | none => simp [hA] at h
  | some w1 =>
    have hw1 := assignEngines_some engine _ _ _ hA
    subst hw1
    simp only [hA] at h
    cases hc : ModelCalibrator.copyLoop self.helpers (self.helpers.length + 1) 0
        (List.replicate self.helpers.length none) with
    | none => simp [hc] at h
    | some tmp =>
      simp only [hc] at h
      have htmp : self.helpers.length < SIZE_MODULUS → tmp = self.helpers := by
        intro hs
        rw [copyLoop_eq _ hs] at hc
        exact (Option.some.inj hc).symm
      cases fixParameters with
      | nil =>
        obtain ⟨m, obj, ps, e1, e2, e3, e4⟩ := calibrate_some lib model _ _ _ h
        refine ⟨m, obj, ps, _, e1, e2, e3, fun hne => absurd rfl hne, ?_, e4⟩
        intro hs
        rw [htmp hs]
        rfl
      | cons b bs =>
        obtain ⟨m, obj, ps, e1, e2, e3, e4⟩ := calibrate_some lib model _ _ _ h
        refine ⟨m, obj, ps, _, e1, e2, e3, fun _ => rfl, ?_, e4⟩
        intro hs
        rw [htmp hs]
        rfl

theorem calibrateArgs_mask (self : ModelCalibrator) (fix : List Bool) :
    (self.calibrateArgs fix).fixParameters = if fix = [] then none else some fix := by
  unfold ModelCalibrator.calibrateArgs
  split <;> rfl

theorem calibrationCase_some (lib : Library) (cal : ModelCalibrator)
    (curve : Handle FlatForward) (title : String) (a sigma : Option ℚ) (fix : List Bool)
    (l0 l1 : String) (w w' : World) (hsize : cal.helpers.length < SIZE_MODULUS)
    (h : calibrationCase lib cal curve title a sigma fix l0 l1 w = some w') :
    ∃ ps, w'.models = Function.update w.models w.nextModel (some ⟨curve, ps⟩) ∧
      w'.nextModel = w.nextModel + 1 ∧
      w'.calibrations = w.calibrations ++
        [⟨w.nextModel, HullWhite.new lib curve a sigma, cal.calibrateArgs fix⟩] ∧
      (lib.HonoursMask → ∀ i : Nat, fix[i]? = some true →
        ps[i]? = (HullWhite.new lib curve a sigma).params[i]?) := by
  unfold calibrationCase at h
  simp only [World.newModel, World.newEngine, World.print] at h
  split at h
  · exact absurd h (by simp)
  · rename_i w2 hC
    obtain ⟨m, obj, ps, args, e1, e2, e3, e4, e5, e6⟩ := Calibrate_some _ _ _ _ _ _ _ _ hC
    have hm : m = w.nextModel := (Option.some.inj e1).symm
    subst hm
    simp only [Function.update_same, Option.some.injEq] at e2
    subst e2
    have hargs := e5 hsize
    subst hargs
    have hmod : w2.models = Function.update w.models w.nextModel
        (some ⟨curve, ps⟩) := by
      rw [e6]
      simp [World.withEngine, HullWhite.new]
    have hobj : w2.models w.nextModel = some ⟨curve, ps⟩ := by
      rw [hmod]; simp
    simp only [hobj] at h
    split at h
    · rename_i p0 p1 hp0 hp1
      simp only [Option.some.injEq] at h
      subst h
      refine ⟨ps, hmod, ?_, ?_, ?_⟩
      · rw [e6]; rfl
      · rw [e6]
      · intro hlib i hi
        have hne : fix ≠ [] := by
          intro hnil
          subst hnil
          simp at hi
        exact hlib _ _ _ fix ps (by rw [calibrateArgs_mask, if_neg hne]) e3 i hi
    · exact absurd h (by simp)

/-! ## Theorems: the three calibration runs of `main` -/

theorem main_some (lib : Library) (w : World) (h : main lib = some w) :
    ∃ cal0 w0 ps1 ps2 ps3, mainSetup = some (cal0, w0) ∧
      cal0.helpers = [some 0, some 1, some 2, some 3, some 4] ∧
      w.calibrations =
        [⟨0, HullWhite.new lib curveHandle none none, cal0.calibrateArgs []⟩,
         ⟨1, HullWhite.new lib curveHandle (some 0.05) (some 0.0001),
            cal0.calibrateArgs [true, false]⟩,
         ⟨2, HullWhite.new lib curveHandle (some 0.05) (some 0.01),
            cal0.calibrateArgs [false, true]⟩] ∧
      w.models 0 = some ⟨curveHandle, ps1⟩ ∧
      w.models 1 = some ⟨curveHandle, ps2⟩ ∧
      w.models 2 = some ⟨curveHandle, ps3⟩ ∧
      (lib.HonoursMask → ps2[0]? = some (0.05 : ℚ) ∧ ps3[1]? = some (0.01 : ℚ)) := by
  obtain ⟨cal0, w0, h0, hh, hnm, hmd, hcal⟩ : ∃ cal0 w0, mainSetup = some (cal0, w0) ∧
      cal0.helpers = [some 0, some 1, some 2, some 3, some 4] ∧ w0.nextModel = 0 ∧
      w0.models = (fun _ => none) ∧ w0.calibrations = [] :=
    ⟨_, _, rfl, rfl, rfl, rfl, rfl⟩
  have hsize : cal0.helpers.length < SIZE_MODULUS := by rw [hh]; decide
  simp only [main, h0] at h
  cases h1 : case1 lib cal0 curveHandle w0 with
  | none => simp [h1] at h
  | some wa =>
    simp only [h1] at h
    cases h2 : case2 lib cal0 curveHandle wa with
    | none => simp [h2] at h
    | some wb =>
      simp only [h2] at h
      obtain ⟨ps1, m1, n1, c1, _⟩ := calibrationCase_some _ _ _ _ _ _ _ _ _ _ _ hsize h1
      obtain ⟨ps2, m2, n2, c2, k2⟩ := calibrationCase_some _ _ _ _ _ _ _ _ _ _ _ hsize h2
      obtain ⟨ps3, m3, n3, c3, k3⟩ := calibrationCase_some _ _ _ _ _ _ _ _ _ _ _ hsize h
      rw [hnm] at n1 m1 c1
      rw [n1] at n2 m2 c2
      rw [n2] at m3 c3
      refine ⟨cal0, w0, ps1, ps2, ps3, h0, hh, ?_, ?_, ?_, ?_, ?_⟩
      · rw [c3, c2, c1, hcal]
        rfl
      · rw [m3, m2, m1]
        simp
      · rw [m3, m2]
        simp
      · rw [m3]
        simp
      · intro hlib
        exact ⟨by simpa [HullWhite.new] using k2 hlib 0 rfl,
          by simpa [HullWhite.new] using k3 hlib 1 rfl⟩

theorem sampleFit_fixed : ∀ (ps : List ℚ) (fix : List Bool) (i : Nat),
    fix[i]? = some true → (sampleFit fix ps)[i]? = ps[i]? := by
  intro ps
  induction ps with
  | nil => intro fix i _; simp [sampleFit]
  | cons p ps ih =>
    intro fix i hi
    cases fix with
    | nil => simp at hi
    | cons b bs =>
      cases i with
      | zero =>
        simp only [List.getElem?_cons_zero, Option.some.injEq] at hi
        simp [sampleFit, hi]
      | succ i =>
        simp only [List.getElem?_cons_succ] at hi
        simpa [sampleFit] using ih bs i hi

theorem sampleLibrary_honoursMask : sampleLibrary.HonoursMask := by
  intro w obj args fix ps hfix hopt i hi
  simp only [sampleLibrary, hfix, Option.getD_some, Option.some.injEq] at hopt
  rw [← hopt]
  exact sampleFit_fixed _ _ _ hi

/-- C3: for a library whose `calibrate` honours its mask, `Calibrate` leaves every
flagged parameter of the model as it was: after `Calibrate` returns, each parameter
whose flag is `true` has its value from before the call (with mask `[true, false]`
that is parameter 0, with `[false, true]` parameter 1).  In the program: after case
2 the reversion of its model is still `0.05`, after case 3 the sigma of its model
is still `0.01`. -/
theorem Calibrate_keeps_fixed_parameters (lib : Library) (hlib : lib.HonoursMask) :
    (∀ (self : ModelCalibrator) (m : Nat) (engine : SharedPtr) (curve : Handle FlatForward)
        (fix : List Bool) (w w' : World) (obj : HullWhite),
        w.models m = some obj →
        self.Calibrate lib (some m) engine curve fix w = some w' →
        ∃ obj', w'.models m = some obj' ∧
          ∀ i : Nat, fix[i]? = some true → obj'.params[i]? = obj.params[i]?) ∧
    (∀ w : World, main lib = some w →
      ∃ c2 c3 o2 o3, w.calibrations[1]? = some c2 ∧ w.calibrations[2]? = some c3 ∧
        c2.args.fixParameters = some [true, false] ∧
        c3.args.fixParameters = some [false, true] ∧
        w.models c2.model = some o2 ∧ w.models c3.model = some o3 ∧
        c2.modelBefore.params[0]? = some (0.05 : ℚ) ∧ o2.params[0]? = some (0.05 : ℚ) ∧
        c3.modelBefore.params[1]? = some (0.01 : ℚ) ∧ o3.params[1]? = some (0.01 : ℚ)) := by
  constructor
  · intro self m engine curve fix w w' obj hm h
    obtain ⟨m', obj', ps, args, e1, e2, e3, e4, _, e6⟩ := Calibrate_some _ _ _ _ _ _ _ _ h
    have hmm : m' = m := (Option.some.inj e1).symm
    subst hmm
    rw [hm] at e2
    have hobj : obj' = obj := (Option.some.inj e2).symm
    subst hobj
    refine ⟨{ obj' with params := ps }, by rw [e6]; simp, ?_⟩
    intro i hi
    have hne : fix ≠ [] := by
      intro hnil
      subst hnil
      simp at hi
    exact hlib _ _ _ fix ps (e4 hne) e3 i hi
  · intro w h
    obtain ⟨cal0, w0, ps1, ps2, ps3, _, _, hc, _, hm1, hm2, hk⟩ := main_some lib w h
    obtain ⟨k2, k3⟩ := hk hlib
    rw [hc]
    refine ⟨_, _, ⟨curveHandle, ps2⟩, ⟨curveHandle, ps3⟩, rfl, rfl, ?_, ?_, hm1, hm2, ?_, k2, ?_, k3⟩
    · simp [calibrateArgs_mask]
    · simp [calibrateArgs_mask]
    · simp [HullWhite.new]
    · simp [HullWhite.new]

theorem Calibrate_keeps_fixed_parameters_witness :
    sampleLibrary.HonoursMask ∧
    (demoWorld.models 0 = some demoModel ∧
      ∃ w', demoCalibrator.Calibrate sampleLibrary (some 0) (some 3) curveHandle [true, false]
          demoWorld = some w' ∧
        ∃ obj', w'.models 0 = some obj' ∧
          ∀ i : Nat, [true, false][i]? = some true → obj'.params[i]? = demoModel.params[i]?) ∧
    (∃ w, main sampleLibrary = some w ∧
      ∃ c2 c3 o2 o3, w.calibrations[1]? = some c2 ∧ w.calibrations[2]? = some c3 ∧
        c2.args.fixParameters = some [true, false] ∧
        c3.args.fixParameters = some [false, true] ∧
        w.models c2.model = some o2 ∧ w.models c3.model = some o3 ∧
        c2.modelBefore.params[0]? = some (0.05 : ℚ) ∧ o2.params[0]? = some (0.05 : ℚ) ∧
        c3.modelBefore.params[1]? = some (0.01 : ℚ) ∧ o3.params[1]? = some (0.01 : ℚ)) :=
  ⟨sampleLibrary_honoursMask,
    ⟨rfl, _, rfl, (Calibrate_keeps_fixed_parameters sampleLibrary sampleLibrary_honoursMask).1
      demoCalibrator 0 (some 3) curveHandle [true, false] demoWorld _ demoModel rfl rfl⟩,
    ⟨_, rfl, (Calibrate_keeps_fixed_parameters sampleLibrary sampleLibrary_honoursMask).2 _ rfl⟩⟩

/-- C6: the fix-mask length invariant over the calls the program makes.  In every
run of `main` that completes there are three calibrations; each is on a model
with two parameters, and its mask is either not provided (the empty mask: all
parameters are calibrated) or has exactly as many flags as the model has
parameters.  The masks are, in order: none, `[true, false]`, `[false, true]`. -/
theorem fix_mask_length_invariant (lib : Library) (w : World) (h : main lib = some w) :
    w.calibrations.map (fun c => c.args.fixParameters) =
        [none, some [true, false], some [false, true]] ∧
      ∀ c ∈ w.calibrations, c.modelBefore.params.length = 2 ∧
        (c.args.fixParameters = none ∨
          ∃ fix, c.args.fixParameters = some fix ∧
            fix.length = c.modelBefore.params.length) := by
  obtain ⟨cal0, w0, ps1, ps2, ps3, _, _, hc, _⟩ := main_some lib w h
  rw [hc]
  constructor
  · simp [calibrateArgs_mask]
  · intro c hmem
    simp only [List.mem_cons, List.mem_singleton, List.not_mem_nil, or_false] at hmem
    rcases hmem with rfl | rfl | rfl
    · exact ⟨rfl, Or.inl (by simp [calibrateArgs_mask])⟩
    · exact ⟨rfl, Or.inr ⟨[true, false], by simp [calibrateArgs_mask], rfl⟩⟩
    · exact ⟨rfl, Or.inr ⟨[false, true], by simp [calibrateArgs_mask], rfl⟩⟩

theorem fix_mask_length_invariant_witness :
    ∃ w, main sampleLibrary = some w ∧
      (w.calibrations.map (fun c => c.args.fixParameters) =
          [none, some [true, false], some [false, true]] ∧
        ∀ c ∈ w.calibrations, c.modelBefore.params.length = 2 ∧
          (c.args.fixParameters = none ∨
            ∃ fix, c.args.fixParameters = some fix ∧
              fix.length = c.modelBefore.params.length)) :=
  ⟨_, rfl, fix_mask_length_invariant sampleLibrary _ rfl⟩

/-- C8, as amended: in case 1 (empty fix-mask) the model handed to `Calibrate` is
built from the curve alone, so its reversion and sigma are the defaults of the
library's constructor (no `0.05` is passed; that value is the explicit reversion
of cases 2 and 3); it is over the flat `0.04875825` curve, and the instruments are
the calibrator's helpers, which quote the five volatilities
`[0.1148, 0.1108, 0.1070, 0.1021, 0.1000]` in this order. -/
theorem case1_model_has_library_defaults (lib : Library) (w : World)
    (h : main lib = some w) :
    ∃ cal0 w0 c rest, mainSetup = some (cal0, w0) ∧ w.calibrations = c :: rest ∧
      c.modelBefore = HullWhite.new lib curveHandle none none ∧
      c.modelBefore.params = [lib.hullWhiteDefaultA, lib.hullWhiteDefaultSigma] ∧
      c.modelBefore.termStructure = curveHandle ∧
      curveHandle.map (fun t => t.forward) = some (0.04875825 : ℚ) ∧
      c.args.fixParameters = none ∧
      c.args.instruments = cal0.helpers ∧
      cal0.helpers.map w0.quoteOf =
        [some (0.1148 : ℚ), some (0.1108 : ℚ), some (0.1070 : ℚ), some (0.1021 : ℚ),
          some (0.1000 : ℚ)] := by
  obtain ⟨cal0, w0, ps1, ps2, ps3, h0, hh, hc, _⟩ := main_some lib w h
  have hq : ∀ cal w1, mainSetup = some (cal, w1) → cal.helpers.map w1.quoteOf =
      [some (0.1148 : ℚ), some (0.1108 : ℚ), some (0.1070 : ℚ), some (0.1021 : ℚ),
        some (0.1000 : ℚ)] := by
    intro cal w1 hs
    have hs2 : some (cal, w1) = mainSetup := hs.symm
    have hcal : cal = (mainSetup.get rfl).1 := by
      simp [← hs2]
    have hw1 : w1 = (mainSetup.get rfl).2 := by
      simp [← hs2]
    rw [hcal, hw1]
    rfl
  refine ⟨cal0, w0, _, _, h0, hc, rfl, rfl, rfl, rfl, ?_, ?_, hq _ _ h0⟩
  · simp [calibrateArgs_mask]
  · simp [ModelCalibrator.calibrateArgs]

theorem case1_model_has_library_defaults_witness :
    ∃ w, main sampleLibrary = some w ∧
      ∃ cal0 w0 c rest, mainSetup = some (cal0, w0) ∧ w.calibrations = c :: rest ∧
        c.modelBefore = HullWhite.new sampleLibrary curveHandle none none ∧
        c.modelBefore.params =
          [sampleLibrary.hullWhiteDefaultA, sampleLibrary.hullWhiteDefaultSigma] ∧
        c.modelBefore.termStructure = curveHandle ∧
        curveHandle.map (fun t => t.forward) = some (0.04875825 : ℚ) ∧
        c.args.fixParameters = none ∧
        c.args.instruments = cal0.helpers ∧
        cal0.helpers.map w0.quoteOf =
          [some (0.1148 : ℚ), some (0.1108 : ℚ), some (0.1070 : ℚ), some (0.1021 : ℚ),
            some (0.1000 : ℚ)] :=
  ⟨_, rfl, case1_model_has_library_defaults sampleLibrary _ rfl⟩

/-- C8, as stated, fails: with the constructor defaults `a = 0.1`, `sigma = 0.01`
the model handed to `Calibrate` in case 1 has reversion `0.1`, not `0.05`. -/
theorem case1_reversion_is_not_0_05 :
    ∃ w c, main sampleLibrary = some w ∧ w.calibrations[0]? = some c ∧
      c.args.fixParameters = none ∧
      c.modelBefore.params[0]? = some (1 / 10 : ℚ) ∧
      c.modelBefore.params[0]? ≠ some (0.05 : ℚ) := by
  refine ⟨_, _, rfl, rfl, rfl, rfl, ?_⟩
  show (some (1 / 10 : ℚ) : Option ℚ) ≠ some (0.05 : ℚ)
  norm_num

theorem Calibrate_dispatch_witness :
    demoCalibrator.helpers.length < SIZE_MODULUS ∧
      demoCalibrator.Calibrate sampleLibrary (some 0) (some 3) curveHandle [true, false]
          demoWorld =
        (ModelCalibrator.assignEngines (some 3) demoCalibrator.helpers demoWorld).bind
          (HullWhite.calibrate sampleLibrary (some 0)
            (if [true, false] = [] then
              { instruments := demoCalibrator.helpers
                method := OptimizationMethod.LevenbergMarquardt
                endCriteria := demoCalibrator.endCriteria
                additionalConstraint := none
                weights := none
                fixParameters := none }
            else
              { instruments := demoCalibrator.helpers
                method := OptimizationMethod.LevenbergMarquardt
                endCriteria := demoCalibrator.endCriteria
                additionalConstraint := some Constraint.NoConstraint
                weights := some []
                fixParameters := some [true, false] })) :=
  ⟨by decide, Calibrate_dispatch sampleLibrary demoCalibrator (some 0) (some 3) curveHandle
    [true, false] demoWorld (by decide)⟩

theorem demoCalibrator_valid :
    ∀ p ∈ demoCalibrator.helpers, ∃ a obj, p = some a ∧ demoWorld.helpers a = some obj := by
  intro p hp
  simp only [demoCalibrator, List.mem_cons, List.mem_singleton, List.not_mem_nil,
    or_false] at hp
  rcases hp with rfl | rfl | rfl
  · exact ⟨0, _, rfl, rfl⟩
  · exact ⟨1, _, rfl, rfl⟩
  · exact ⟨0, _, rfl, rfl⟩

theorem Calibrate_assigns_engine_witness :
    (∀ p ∈ demoCalibrator.helpers, ∃ a obj, p = some a ∧ demoWorld.helpers a = some obj) ∧
    demoCalibrator.helpers.length < SIZE_MODULUS ∧
    ∃ w1, ModelCalibrator.assignEngines (some 3) demoCalibrator.helpers demoWorld = some w1 ∧
      (∀ a, some a ∈ demoCalibrator.helpers →
        ∃ obj, demoWorld.helpers a = some obj ∧
          w1.helpers a = some { obj with engine := some 3 }) ∧
      (∀ a, some a ∉ demoCalibrator.helpers → w1.helpers a = demoWorld.helpers a) ∧
      demoCalibrator.Calibrate sampleLibrary (some 0) (some 3) curveHandle [true, false]
          demoWorld =
        HullWhite.calibrate sampleLibrary (some 0)
          (demoCalibrator.calibrateArgs [true, false]) w1 ∧
      (∀ w', demoCalibrator.Calibrate sampleLibrary (some 0) (some 3) curveHandle [true, false]
          demoWorld = some w' → w'.helpers = w1.helpers) :=
  ⟨demoCalibrator_valid, by decide,
    Calibrate_assigns_engine sampleLibrary demoCalibrator (some 0) (some 3)
      curveHandle [true, false] demoWorld demoCalibrator_valid (by decide)⟩

end HWCalibrate
